import Mathlib

/-!
Verification development for the `dreamlayer-custom` repository.

The repository has two components:
* `DreamLayerAPI` (src/services/dreamLayerAPI.ts): a thin HTTP client for a
  local image-generation backend.
* `ImageCompositor` (the unnamed compositor service file): a canvas-based
  compositor that overlays a generated square image onto a disc background
  through an annulus clip.

The embedding below translates the TypeScript source directly:
* JavaScript numbers are modelled as `ℚ` (the source only ever manipulates
  them with `*`, `/`, comparisons and the falsy test `x || d`).
* `undefined` optional fields are `Option`; the JavaScript `x || default`
  idiom is modelled by `jsOrQ` / `jsOrStr` (`0`, `""` and `undefined` are
  falsy, everything else is kept).
* A `fetch` outcome is an `Except` value: `.error` for a network failure,
  `.ok` for an HTTP response carrying its `ok` flag, `statusText`, and body.
  For JSON endpoints the body is `Option α`: `some v` when `response.json()`
  parses to `v`, `none` when the body is not valid JSON (in which case
  `response.json()` rejects).
* A canvas is a pixel function `Point → Color`; images drawn with
  `drawImage(img, 0, 0, S, S)` are taken as their already-scaled pixel
  functions and sources are opaque, so a full-surface draw replaces pixels.
-/

/-! ## Data model of the API client (src/services/dreamLayerAPI.ts) -/

/-- `GenerationRequest` from dreamLayerAPI.ts: all fields but `prompt` are
optional. -/
structure GenerationRequest where
  prompt : String
  negative_prompt : Option String := none
  checkpoint : Option String := none
  steps : Option ℚ := none
  cfg : Option ℚ := none
  width : Option ℚ := none
  height : Option ℚ := none
  batch_size : Option ℚ := none
deriving Repr

/-- `GeneratedImage` from dreamLayerAPI.ts. -/
structure GeneratedImage where
  filename : String
  url : Option String := none
deriving Repr, DecidableEq

/-- `GenerationResponse` from dreamLayerAPI.ts. -/
structure GenerationResponse where
  status : String
  message : Option String := none
  generated_images : Option (List GeneratedImage) := none
  error : Option String := none
deriving Repr, DecidableEq

/-- `Model` from dreamLayerAPI.ts. -/
structure Model where
  filename : String
  id : String
  name : String
deriving Repr, DecidableEq

/-- `ModelsResponse` from dreamLayerAPI.ts. -/
structure ModelsResponse where
  status : String
  models : List Model
deriving Repr, DecidableEq

/-- The JSON payload `generateImage` builds and POSTs to `/api/txt2img`:
every field is present after the client-side default filling. -/
structure GenerationPayload where
  prompt : String
  negative_prompt : String
  checkpoint : String
  steps : ℚ
  cfg : ℚ
  width : ℚ
  height : ℚ
  batch_size : ℚ
deriving Repr, DecidableEq

/-- JavaScript `x || d` on an optional number: `undefined` and `0` are
falsy and give the default, every other number is kept. -/
def jsOrQ : Option ℚ → ℚ → ℚ
  | none, d => d
  | some x, d => if x = 0 then d else x

/-- JavaScript `s || d` on an optional string: `undefined` and `""` are
falsy and give the default, every other string is kept. -/
def jsOrStr : Option String → String → String
  | none, d => d
  | some s, d => if s = "" then d else s

/-- An HTTP response as seen by the client: the `ok` flag (true exactly for
2xx statuses), the status text, and the body. -/
structure HttpResponse (β : Type) where
  ok : Bool
  statusText : String
  body : β
deriving Repr

/-- Outcome of `fetch` against a JSON endpoint: `.error` when the network
request itself fails, otherwise the response whose body is `some v` when it
parses as JSON to `v` and `none` when `response.json()` rejects. -/
abbrev FetchResult (α : Type) := Except String (HttpResponse (Option α))

/-- Raw binary payload of a blob response. -/
abbrev Blob := List ℕ

/-- Errors thrown by the API client: a rethrown network/parse failure, a
JSON syntax error from `response.json()`, or an `Error(...)` the client
itself constructs. -/
inductive APIError where
  | network (cause : String)
  | malformedJson
  | thrown (msg : String)
deriving Repr, DecidableEq

/-- Whether an `Except` result is a normal (non-thrown) return. -/
def exceptIsOk {ε α : Type} : Except ε α → Bool
  | .ok _ => true
  | .error _ => false

/-! ## Operations of the API client -/

/-- `imagesURL` as set in the `DreamLayerAPI` constructor:
`` `${baseURL}:5001/api/images` ``. -/
def imagesURL (baseURL : String) : String := baseURL ++ ":5001/api/images"

/-- `getImageURL` from dreamLayerAPI.ts: `` `${this.imagesURL}/${filename}` ``,
plain template-literal concatenation, no URL-encoding. -/
def getImageURL (baseURL : String) (filename : String) : String :=
  imagesURL baseURL ++ "/" ++ filename

/-- The payload `generateImage` builds: each optional field passed through
the JavaScript `||` default. -/
def buildPayload (request : GenerationRequest) : GenerationPayload :=
  { prompt := request.prompt
  , negative_prompt := jsOrStr request.negative_prompt "blurry, low quality, bad anatomy"
  , checkpoint := jsOrStr request.checkpoint "stable-diffusion-v1-5.safetensors"
  , steps := jsOrQ request.steps 20
  , cfg := jsOrQ request.cfg 7
  , width := jsOrQ request.width 300
  , height := jsOrQ request.height 300
  , batch_size := jsOrQ request.batch_size 1 }

/-- What one call to `generateImage` did: the payload it passed to `fetch`,
and what it returned or threw. -/
structure GenerateOutcome where
  sentPayload : GenerationPayload
  result : Except APIError GenerationResponse

/-- `generateImage` from dreamLayerAPI.ts, as a function of the request and
of the `fetch` outcome: build the payload, POST it, parse the body with
`response.json()` and return the parsed value verbatim. The `ok` flag of
the response is never inspected; a thrown network or JSON-parse error is
caught, logged and rethrown unchanged. -/
def generateImage (request : GenerationRequest)
    (fetched : FetchResult GenerationResponse) : GenerateOutcome :=
  { sentPayload := buildPayload request
  , result :=
      match fetched with
      | .error e => .error (.network e)
      | .ok resp =>
          match resp.body with
          | none => .error .malformedJson
          | some data => .ok data }

/-- `getModels` from dreamLayerAPI.ts: GET the models endpoint, parse the
JSON body; if `data.status === 'success'` return `data.models`, otherwise
throw `Error('Failed to fetch models')`. The HTTP `ok` flag is never
inspected. -/
def getModels (fetched : FetchResult ModelsResponse) : Except APIError (List Model) :=
  match fetched with
  | .error e => .error (.network e)
  | .ok resp =>
      match resp.body with
      | none => .error .malformedJson
      | some data =>
          if data.status = "success" then .ok data.models
          else .error (.thrown "Failed to fetch models")

/-- `downloadImage` from dreamLayerAPI.ts: GET the composed image URL; if
`!response.ok` throw ``Error(`Failed to download image: ${response.statusText}`)``,
otherwise return the blob. -/
def downloadImage (fetched : Except String (HttpResponse Blob)) : Except APIError Blob :=
  match fetched with
  | .error e => .error (.network e)
  | .ok resp =>
      if resp.ok then .ok resp.body
      else .error (.thrown ("Failed to download image: " ++ resp.statusText))

/-! ## Theorems about the API client -/

/-- C3: a request with every optional field unset is transmitted with the
documented defaults (negative_prompt = the canned string, checkpoint = the
default filename, steps = 20, cfg = 7.0, width = height = 300,
batch_size = 1) and the prompt unchanged. -/
theorem c3_defaults_applied (request : GenerationRequest)
    (fetched : FetchResult GenerationResponse)
    (h1 : request.negative_prompt = none) (h2 : request.checkpoint = none)
    (h3 : request.steps = none) (h4 : request.cfg = none)
    (h5 : request.width = none) (h6 : request.height = none)
    (h7 : request.batch_size = none) :
    (generateImage request fetched).sentPayload =
      { prompt := request.prompt
      , negative_prompt := "blurry, low quality, bad anatomy"
      , checkpoint := "stable-diffusion-v1-5.safetensors"
      , steps := 20, cfg := 7, width := 300, height := 300, batch_size := 1 } := by
  simp [generateImage, buildPayload, h1, h2, h3, h4, h5, h6, h7, jsOrQ, jsOrStr]

/-- Witness for C3 at a concrete all-default request. -/
theorem c3_defaults_applied_witness :
    ({ prompt := "a cat" } : GenerationRequest).negative_prompt = none ∧
    (generateImage { prompt := "a cat" } (.error "down")).sentPayload =
      { prompt := "a cat"
      , negative_prompt := "blurry, low quality, bad anatomy"
      , checkpoint := "stable-diffusion-v1-5.safetensors"
      , steps := 20, cfg := 7, width := 300, height := 300, batch_size := 1 } :=
  ⟨rfl, c3_defaults_applied { prompt := "a cat" } (.error "down")
    rfl rfl rfl rfl rfl rfl rfl⟩

/-- C4: whenever the body parses as JSON, `generateImage` returns the parsed
response verbatim (backend-reported error fields included); it throws exactly
when the transport failed or the body is not valid JSON, never because the
parsed `status` field indicates failure. -/
theorem c4_generate_returns_verbatim (request : GenerationRequest)
    (fetched : FetchResult GenerationResponse) :
    (∀ resp data, fetched = .ok resp → resp.body = some data →
        (generateImage request fetched).result = .ok data) ∧
    (exceptIsOk (generateImage request fetched).result = false ↔
      (∃ e, fetched = .error e) ∨ ∃ resp, fetched = .ok resp ∧ resp.body = none) := by
  constructor
  · rintro resp data rfl hbody
    simp [generateImage, hbody]
  · cases fetched with
    | error e => simp [generateImage, exceptIsOk]
    | ok resp =>
        cases hbody : resp.body with
        | none => simp [generateImage, hbody, exceptIsOk]
        | some data => simp [generateImage, hbody, exceptIsOk]

/-- Witness for C4: a backend-reported failure envelope is returned, not
thrown. -/
theorem c4_generate_returns_verbatim_witness :
    (Except.ok ⟨true, "OK", some { status := "error", error := some "boom" }⟩ :
        FetchResult GenerationResponse) =
      .ok ⟨true, "OK", some { status := "error", error := some "boom" }⟩ ∧
    (generateImage { prompt := "p" }
        (.ok ⟨true, "OK", some { status := "error", error := some "boom" }⟩)).result =
      .ok { status := "error", error := some "boom" } :=
  ⟨rfl, (c4_generate_returns_verbatim { prompt := "p" }
      (.ok ⟨true, "OK", some { status := "error", error := some "boom" }⟩)).1
    ⟨true, "OK", some { status := "error", error := some "boom" }⟩
    { status := "error", error := some "boom" } rfl rfl⟩

/-- C5 counterexample: a non-2xx HTTP response whose body is valid JSON is
returned by `generateImage` as a normal result, not surfaced as a thrown
error — the original claim's "every client operation" is false. -/
theorem c5_counterexample :
    (({ ok := false, statusText := "Not Found"
      , body := some { status := "error" } } : HttpResponse (Option GenerationResponse)).ok
        = false) ∧
    (generateImage { prompt := "p" }
        (.ok { ok := false, statusText := "Not Found"
             , body := some { status := "error" } })).result =
      .ok { status := "error" } :=
  ⟨rfl, rfl⟩

/-- C5 amended: only `downloadImage` treats a non-2xx HTTP status as an
error (thrown with the status text attached); `generateImage` and
`getModels` never inspect the HTTP `ok` flag — their outcome is unchanged if
the same body arrives with `ok` set to true. -/
theorem c5_amended_non2xx_handling
    (resp : HttpResponse Blob) (hok : resp.ok = false) :
    downloadImage (.ok resp) =
      .error (.thrown ("Failed to download image: " ++ resp.statusText)) ∧
    (∀ (request : GenerationRequest) (rj : HttpResponse (Option GenerationResponse)),
        (generateImage request (.ok rj)).result =
          (generateImage request (.ok { rj with ok := true })).result) ∧
    (∀ rm : HttpResponse (Option ModelsResponse),
        getModels (.ok rm) = getModels (.ok { rm with ok := true })) := by
  refine ⟨by simp [downloadImage, hok], ?_, ?_⟩
  · intro request rj
    simp [generateImage]
  · intro rm
    simp [getModels]

/-- Witness for the amended C5 at a concrete 404 response. -/
theorem c5_amended_non2xx_handling_witness :
    ({ ok := false, statusText := "Not Found", body := [] } : HttpResponse Blob).ok = false ∧
    downloadImage (.ok { ok := false, statusText := "Not Found", body := [] }) =
      .error (.thrown ("Failed to download image: " ++ "Not Found")) :=
  ⟨rfl, (c5_amended_non2xx_handling
    { ok := false, statusText := "Not Found", body := [] } rfl).1⟩

/-- C6: when the models endpoint's JSON body has a `status` field other than
`"success"`, `getModels` throws instead of returning an empty or partial
list; when the field equals `"success"` it returns the models array
exactly. -/
theorem c6_models_status_check (fetched : FetchResult ModelsResponse)
    (resp : HttpResponse (Option ModelsResponse)) (data : ModelsResponse)
    (hresp : fetched = .ok resp) (hbody : resp.body = some data) :
    (data.status = "success" → getModels fetched = .ok data.models) ∧
    (data.status ≠ "success" →
      getModels fetched = .error (.thrown "Failed to fetch models")) := by
  subst hresp
  constructor
  · intro hs; simp [getModels, hbody, hs]
  · intro hs; simp [getModels, hbody, hs]

/-- Witness for C6 at a concrete `{status:"error"}` body. -/
theorem c6_models_status_check_witness :
    (Except.ok ⟨true, "OK", some { status := "error", models := [] }⟩ :
        FetchResult ModelsResponse) =
      .ok ⟨true, "OK", some { status := "error", models := [] }⟩ ∧
    getModels (.ok ⟨true, "OK", some { status := "error", models := [] }⟩) =
      .error (.thrown "Failed to fetch models") :=
  ⟨rfl, (c6_models_status_check
      (.ok ⟨true, "OK", some { status := "error", models := [] }⟩)
      ⟨true, "OK", some { status := "error", models := [] }⟩
      { status := "error", models := [] } rfl rfl).2 (by decide)⟩

/-- C8: `getImageURL` is pure string concatenation `imagesBase ++ "/" ++ f`;
the filename is appended verbatim after a filename-independent base, so no
URL-encoding is ever applied. -/
theorem c8_getImageURL_pure_concat (baseURL filename : String) :
    getImageURL baseURL filename = imagesURL baseURL ++ "/" ++ filename ∧
    getImageURL baseURL filename = getImageURL baseURL "" ++ filename := by
  refine ⟨rfl, ?_⟩
  simp [getImageURL]

/-- C10: an optional numeric field explicitly set to `0`, or an optional
string field explicitly set to `""`, is replaced by its default in the sent
payload; consequently no payload ever carries steps = 0, cfg = 0,
width = 0, height = 0, batch_size = 0, an empty negative prompt or an empty
checkpoint. -/
theorem c10_falsy_values_replaced (request : GenerationRequest)
    (fetched : FetchResult GenerationResponse) :
    ((request.steps = some 0 → (generateImage request fetched).sentPayload.steps = 20) ∧
     (request.cfg = some 0 → (generateImage request fetched).sentPayload.cfg = 7) ∧
     (request.width = some 0 → (generateImage request fetched).sentPayload.width = 300) ∧
     (request.height = some 0 → (generateImage request fetched).sentPayload.height = 300) ∧
     (request.batch_size = some 0 →
        (generateImage request fetched).sentPayload.batch_size = 1) ∧
     (request.negative_prompt = some "" →
        (generateImage request fetched).sentPayload.negative_prompt =
          "blurry, low quality, bad anatomy") ∧
     (request.checkpoint = some "" →
        (generateImage request fetched).sentPayload.checkpoint =
          "stable-diffusion-v1-5.safetensors")) ∧
    ((generateImage request fetched).sentPayload.steps ≠ 0 ∧
     (generateImage request fetched).sentPayload.cfg ≠ 0 ∧
     (generateImage request fetched).sentPayload.width ≠ 0 ∧
     (generateImage request fetched).sentPayload.height ≠ 0 ∧
     (generateImage request fetched).sentPayload.batch_size ≠ 0 ∧
     (generateImage request fetched).sentPayload.negative_prompt ≠ "" ∧
     (generateImage request fetched).sentPayload.checkpoint ≠ "") := by
  have hq : ∀ (o : Option ℚ) (d : ℚ), d ≠ 0 → jsOrQ o d ≠ 0 := by
    intro o d hd
    cases o with
    | none => simpa [jsOrQ] using hd
    | some x =>
        by_cases hx : x = 0
        · simpa [jsOrQ, hx] using hd
        · simp [jsOrQ, hx]
  have hs : ∀ (o : Option String) (d : String), d ≠ "" → jsOrStr o d ≠ "" := by
    intro o d hd
    cases o with
    | none => simpa [jsOrStr] using hd
    | some x =>
        by_cases hx : x = ""
        · simpa [jsOrStr, hx] using hd
        · simp [jsOrStr, hx]
  refine ⟨⟨?_, ?_, ?_, ?_, ?_, ?_, ?_⟩, ?_, ?_, ?_, ?_, ?_, ?_, ?_⟩
  · intro h; simp [generateImage, buildPayload, h, jsOrQ]
  · intro h; simp [generateImage, buildPayload, h, jsOrQ]
  · intro h; simp [generateImage, buildPayload, h, jsOrQ]
  · intro h; simp [generateImage, buildPayload, h, jsOrQ]
  · intro h; simp [generateImage, buildPayload, h, jsOrQ]
  · intro h; simp [generateImage, buildPayload, h, jsOrStr]
  · intro h; simp [generateImage, buildPayload, h, jsOrStr]
  · exact hq _ _ (by norm_num)
  · exact hq _ _ (by norm_num)
  · exact hq _ _ (by norm_num)
  · exact hq _ _ (by norm_num)
  · exact hq _ _ (by norm_num)
  · exact hs _ _ (by decide)
  · exact hs _ _ (by decide)

/-- Witness for C10 at a request whose falsy fields are all explicitly set. -/
theorem c10_falsy_values_replaced_witness :
    ({ prompt := "p", steps := some 0 } : GenerationRequest).steps = some 0 ∧
    (generateImage { prompt := "p", steps := some 0 } (.error "down")).sentPayload.steps
      = 20 :=
  ⟨rfl, (c10_falsy_values_replaced { prompt := "p", steps := some 0 }
      (.error "down")).1.1 rfl⟩

/-! ## Data model of the compositor (the image compositor service file) -/

/-- A pixel/point coordinate on a canvas. -/
abbrev Point := ℚ × ℚ

/-- A pixel value; concrete fill colors are hex strings as in the source. -/
abbrev Color := String

/-- A canvas or image, as the pixel function of its rendered content. An
image passed to `drawImage(img, 0, 0, S, S)` appears as its pixel function
already scaled to the `S×S` surface; sources are opaque, so a full-surface
draw replaces every pixel. -/
abbrev Canvas := Point → Color

/-- Squared distance from a point to a center. -/
def sqDistTo (p : Point) (cx cy : ℚ) : ℚ :=
  (p.1 - cx) * (p.1 - cx) + (p.2 - cy) * (p.2 - cy)

/-- Footprint of one stipple mark: the pixels covered by
`ctx.fillRect(cx + cos(2π·turn)·dist, cy + sin(2π·turn)·dist, 1, 1)`. It is
kept as a parameter of the embedding because `Math.cos`/`Math.sin` are
transcendental; no claim depends on which pixels a mark covers. -/
abbrev MarkFoot := ℚ → ℚ → ℚ → ℚ → Point → Bool

/-- One drawing call issued by `createSolidDisc`. A `mark` records the
1×1 `fillRect` of the texture loop in polar form relative to the center:
`turn` is the fraction of a full revolution (the source's
`angle = (i / 20) * 2 * Math.PI` is `2π·turn`), `dist` the distance
`outerRadius * 0.7` from the center. -/
inductive DrawOp where
  | fillRect (color : Color) (x y w h : ℚ)
  | fillCircle (color : Color) (cx cy r : ℚ)
  | mark (color : Color) (cx cy turn dist w h : ℚ)
deriving Repr, DecidableEq

/-- The fill color of a drawing call. -/
def opColor : DrawOp → Color
  | .fillRect c _ _ _ _ => c
  | .fillCircle c _ _ _ => c
  | .mark c _ _ _ _ _ _ => c

/-- Whether a drawing call covers a point: `fillRect` covers its rectangle,
`fill` of an arc path covers the open disc, a mark covers its footprint. -/
def opCovers (mf : MarkFoot) : DrawOp → Point → Bool
  | .fillRect _ x y w h, p => decide (x ≤ p.1 ∧ p.1 < x + w ∧ y ≤ p.2 ∧ p.2 < y + h)
  | .fillCircle _ cx cy r, p => decide (sqDistTo p cx cy < r * r)
  | .mark _ cx cy t d _ _, p => mf cx cy t d p

/-- Painter's-order rendering of a list of drawing calls over an initially
transparent canvas: the last covering call wins. -/
def renderOps (mf : MarkFoot) (ops : List DrawOp) : Canvas :=
  fun p => ops.foldl (fun acc op => if opCovers mf op p then opColor op else acc) "transparent"

/-- The drawing calls of `createSolidDisc` from the compositor source, in
order: light-gray background `fillRect(0, 0, size, size)`, darker-gray disc
of radius `size * 0.4`, white center hole of radius `size * 0.08`, then 20
texture marks at angles `(i / 20) * 2π` and distance `outerRadius * 0.7`. -/
def createSolidDiscOps (size : ℚ) : List DrawOp :=
  [ DrawOp.fillRect "#f0f0f0" 0 0 size size
  , DrawOp.fillCircle "#888888" (size / 2) (size / 2) (size * 2 / 5)
  , DrawOp.fillCircle "#ffffff" (size / 2) (size / 2) (size * 2 / 25)
  ] ++ (List.range 20).map (fun i : ℕ =>
      DrawOp.mark "#666666" (size / 2) (size / 2) ((i : ℚ) / 20)
        ((size * 2 / 5) * (7 / 10)) 1 1)

/-- The fallback disc image `createSolidDisc` returns, as a canvas. -/
def solidDiscCanvas (mf : MarkFoot) (size : ℚ) : Canvas :=
  renderOps mf (createSolidDiscOps size)

/-- Whether a drawing call is a texture mark. -/
def isMark : DrawOp → Bool
  | .mark .. => true
  | _ => false

/-- The polar angle (in turns) a mark was placed at. -/
def markTurn : DrawOp → ℚ
  | .mark _ _ _ t _ _ _ => t
  | _ => 0

/-- The distance from the center a mark was placed at. -/
def markDist : DrawOp → ℚ
  | .mark _ _ _ _ d _ _ => d
  | _ => 0

/-- `CompositorOptions` from the compositor source. `discBaseImage` and
`generatedImage` are declared by the interface but never read by
`compositeDiscCover`; `outputSize` participates in the `||` default. -/
structure CompositorOptions where
  discBaseImage : Option Canvas := none
  generatedImage : Option Canvas := none
  outputSize : Option ℚ := none

/-- The composited output surface: its square side length and pixels. The
source returns it encoded as `canvas.toDataURL('image/png')`; the PNG data
URL is a function of this surface. -/
structure CompositeResult where
  size : ℚ
  pixels : Canvas

/-- Winding number of the clip path of `compositeDiscCover` at a point: the
path is `arc(center, outerRadius, 0, 2π)` followed by
`arc(center, innerRadius, 0, 2π, true)` (reversed direction). A full-circle
arc contributes `±1` inside its circle and `0` outside. -/
def windingTwoArcs (cx cy rOuter rInner : ℚ) (p : Point) : ℤ :=
  (if sqDistTo p cx cy < rOuter * rOuter then 1 else 0)
  + (if sqDistTo p cx cy < rInner * rInner then -1 else 0)

/-- The clip region `ctx.clip()` installs from that two-arc path under the
default nonzero winding rule. -/
def annulusClip (cx cy rOuter rInner : ℚ) (p : Point) : Bool :=
  decide (windingTwoArcs cx cy rOuter rInner p ≠ 0)

/-- The open disc of radius `r` around `(cx, cy)`. -/
def circleRegion (cx cy r : ℚ) (p : Point) : Prop :=
  sqDistTo p cx cy < r * r

/-- The disc background `compositeDiscCover` draws in step one: the loaded
asset when the load succeeded, otherwise the synthesized solid disc. -/
def usedBackground (mf : MarkFoot) (discLoad : Except String Canvas) (size : ℚ) : Canvas :=
  match discLoad with
  | .ok d => d
  | .error _ => solidDiscCanvas mf size

/-- Final pixels of `compositeDiscCover`: the disc background drawn over the
full surface, then the generated image (via the temp canvas) drawn through
the two-arc clip; so a clipped-in pixel shows the generated image and every
other pixel keeps the background. -/
def composedPixels (mf : MarkFoot) (gen : Canvas) (discLoad : Except String Canvas)
    (size : ℚ) : Canvas :=
  fun p =>
    if annulusClip (size / 2) (size / 2) (size * 2 / 5) (size * 2 / 25) p
    then gen p
    else usedBackground mf discLoad size p

/-- `compositeDiscCover` from the compositor source, as a function of the
two image-load outcomes: resolve `outputSize` with the `||` default of 300,
fail when the generated image cannot load (the catch block rethrows the
error unchanged), fall back to `createSolidDisc` when the disc background
cannot load, and return the clipped composite surface. -/
def compositeDiscCover (mf : MarkFoot) (genLoad discLoad : Except String Canvas)
    (opts : CompositorOptions) : Except String CompositeResult :=
  let outputSize := jsOrQ opts.outputSize 300
  match genLoad with
  | .error e => .error e
  | .ok gen =>
      .ok { size := outputSize
          , pixels := composedPixels mf gen discLoad outputSize }

/-! ## Helper lemmas about the clip region -/

/-- The nonzero-winding region of the two full-circle arcs is the outer disc
minus the inner disc, provided the inner radius is the smaller one. -/
theorem annulusClip_eq_true_iff (cx cy ro ri : ℚ) (p : Point)
    (h : ri * ri ≤ ro * ro) :
    annulusClip cx cy ro ri p = true ↔
      (sqDistTo p cx cy < ro * ro ∧ ¬ sqDistTo p cx cy < ri * ri) := by
  unfold annulusClip
  rw [decide_eq_true_eq]
  unfold windingTwoArcs
  by_cases h1 : sqDistTo p cx cy < ro * ro <;> by_cases h2 : sqDistTo p cx cy < ri * ri
  · norm_num [h1, h2]
  · norm_num [h1, h2]
  · exact absurd (lt_of_lt_of_le h2 h) h1
  · norm_num [h1, h2]

/-- For every size, the squared inner radius `(0.08·S)²` is at most the
squared outer radius `(0.4·S)²`. -/
theorem innerSq_le_outerSq (s : ℚ) :
    (s * 2 / 25) * (s * 2 / 25) ≤ (s * 2 / 5) * (s * 2 / 5) := by
  nlinarith [sq_nonneg s]

/-! ## Theorems about the compositor -/

/-- C1: for every loaded generated image, `compositeDiscCover` returns a
surface of exactly the resolved output size `S`, whose pixels strictly
inside radius `0.08·S` of the center show the disc background, strictly
between radii `0.08·S` and `0.4·S` show the generated image, and strictly
outside radius `0.4·S` show the disc background again; the installed clip
region is exactly the outer disc minus the inner disc. -/
theorem c1_output_bands (mf : MarkFoot) (gen : Canvas)
    (discLoad : Except String Canvas) (opts : CompositorOptions) :
    ∃ out : CompositeResult,
      compositeDiscCover mf (.ok gen) discLoad opts = .ok out ∧
      out.size = jsOrQ opts.outputSize 300 ∧
      (∀ p : Point,
        (sqDistTo p (out.size / 2) (out.size / 2) <
            (out.size * 2 / 25) * (out.size * 2 / 25) →
          out.pixels p = usedBackground mf discLoad out.size p) ∧
        ((out.size * 2 / 25) * (out.size * 2 / 25) <
              sqDistTo p (out.size / 2) (out.size / 2) ∧
            sqDistTo p (out.size / 2) (out.size / 2) <
              (out.size * 2 / 5) * (out.size * 2 / 5) →
          out.pixels p = gen p) ∧
        ((out.size * 2 / 5) * (out.size * 2 / 5) <
            sqDistTo p (out.size / 2) (out.size / 2) →
          out.pixels p = usedBackground mf discLoad out.size p) ∧
        (annulusClip (out.size / 2) (out.size / 2)
            (out.size * 2 / 5) (out.size * 2 / 25) p = true ↔
          (circleRegion (out.size / 2) (out.size / 2) (out.size * 2 / 5) p ∧
            ¬ circleRegion (out.size / 2) (out.size / 2) (out.size * 2 / 25) p))) := by
  refine ⟨⟨jsOrQ opts.outputSize 300,
    composedPixels mf gen discLoad (jsOrQ opts.outputSize 300)⟩, rfl, rfl, fun p => ?_⟩
  dsimp only
  have hri := innerSq_le_outerSq (jsOrQ opts.outputSize 300)
  have hiff := annulusClip_eq_true_iff (jsOrQ opts.outputSize 300 / 2)
    (jsOrQ opts.outputSize 300 / 2) (jsOrQ opts.outputSize 300 * 2 / 5)
    (jsOrQ opts.outputSize 300 * 2 / 25) p hri
  refine ⟨?_, ?_, ?_, ?_⟩
  · intro h
    unfold composedPixels
    rw [if_neg (fun hc => ((hiff.mp hc).2 (lt_of_lt_of_le h (le_refl _))))]
  · rintro ⟨h1, h2⟩
    unfold composedPixels
    rw [if_pos (hiff.mpr ⟨h2, not_lt.mpr h1.le⟩)]
  · intro h
    unfold composedPixels
    rw [if_neg (fun hc => absurd ((hiff.mp hc).1) (not_lt.mpr h.le))]
  · simpa [circleRegion] using hiff

/-- Witness for C1 at size 10 with sample points in each band: the center
(inside the hole), a point of the annulus, and a corner point outside the
disc. -/
theorem c1_output_bands_witness :
    (sqDistTo ((5 : ℚ), (5 : ℚ)) (jsOrQ (some 10) 300 / 2) (jsOrQ (some 10) 300 / 2) <
        (jsOrQ (some 10) 300 * 2 / 25) * (jsOrQ (some 10) 300 * 2 / 25)) ∧
    ((jsOrQ (some 10) 300 * 2 / 25) * (jsOrQ (some 10) 300 * 2 / 25) <
        sqDistTo ((7 : ℚ), (5 : ℚ)) (jsOrQ (some 10) 300 / 2) (jsOrQ (some 10) 300 / 2) ∧
      sqDistTo ((7 : ℚ), (5 : ℚ)) (jsOrQ (some 10) 300 / 2) (jsOrQ (some 10) 300 / 2) <
        (jsOrQ (some 10) 300 * 2 / 5) * (jsOrQ (some 10) 300 * 2 / 5)) ∧
    ((jsOrQ (some 10) 300 * 2 / 5) * (jsOrQ (some 10) 300 * 2 / 5) <
        sqDistTo ((0 : ℚ), (0 : ℚ)) (jsOrQ (some 10) 300 / 2) (jsOrQ (some 10) 300 / 2)) ∧
    (∃ out : CompositeResult,
      compositeDiscCover (fun _ _ _ _ _ => false) (.ok fun _ => "G") (.ok fun _ => "B")
          { outputSize := some 10 } = .ok out ∧
      out.size = jsOrQ ({ outputSize := some 10 } : CompositorOptions).outputSize 300 ∧
      (∀ p : Point,
        (sqDistTo p (out.size / 2) (out.size / 2) <
            (out.size * 2 / 25) * (out.size * 2 / 25) →
          out.pixels p =
            usedBackground (fun _ _ _ _ _ => false) (.ok fun _ => "B") out.size p) ∧
        ((out.size * 2 / 25) * (out.size * 2 / 25) <
              sqDistTo p (out.size / 2) (out.size / 2) ∧
            sqDistTo p (out.size / 2) (out.size / 2) <
              (out.size * 2 / 5) * (out.size * 2 / 5) →
          out.pixels p = (fun _ => "G") p) ∧
        ((out.size * 2 / 5) * (out.size * 2 / 5) <
            sqDistTo p (out.size / 2) (out.size / 2) →
          out.pixels p =
            usedBackground (fun _ _ _ _ _ => false) (.ok fun _ => "B") out.size p) ∧
        (annulusClip (out.size / 2) (out.size / 2)
            (out.size * 2 / 5) (out.size * 2 / 25) p = true ↔
          (circleRegion (out.size / 2) (out.size / 2) (out.size * 2 / 5) p ∧
            ¬ circleRegion (out.size / 2) (out.size / 2) (out.size * 2 / 25) p)))) :=
  ⟨by norm_num [sqDistTo, jsOrQ], ⟨by norm_num [sqDistTo, jsOrQ], by norm_num [sqDistTo, jsOrQ]⟩,
    by norm_num [sqDistTo, jsOrQ],
    c1_output_bands (fun _ _ _ _ _ => false) (fun _ => "G") (.ok fun _ => "B")
      { outputSize := some 10 }⟩

/-- C2: when the disc-background load fails, `compositeDiscCover` still
succeeds, returning a surface of exactly the resolved size `S` whose
background is the synthesized solid disc; the synthesis consists of a
light background rectangle covering the surface, a neutral filled circle of
radius `0.4·S` and a contrasting filled circle of radius `0.08·S` at the
center `(S/2, S/2)`, and exactly 20 evenly spaced texture marks on the
ring of radius `0.7·(0.4·S)` around that center. -/
theorem c2_disc_fallback (mf : MarkFoot) (gen : Canvas) (e : String)
    (opts : CompositorOptions) (s : ℚ) (hs : s = jsOrQ opts.outputSize 300) :
    compositeDiscCover mf (.ok gen) (.error e) opts =
      .ok { size := s, pixels := composedPixels mf gen (.error e) s } ∧
    usedBackground mf (.error e) s = solidDiscCanvas mf s ∧
    (createSolidDiscOps s).take 3 =
      [ DrawOp.fillRect "#f0f0f0" 0 0 s s
      , DrawOp.fillCircle "#888888" (s / 2) (s / 2) (s * 2 / 5)
      , DrawOp.fillCircle "#ffffff" (s / 2) (s / 2) (s * 2 / 25) ] ∧
    ((createSolidDiscOps s).filter isMark).length = 20 ∧
    (∀ i : ℕ, i < 20 →
      ((createSolidDiscOps s).filter isMark)[i]? =
        some (DrawOp.mark "#666666" (s / 2) (s / 2) ((i : ℚ) / 20)
          ((s * 2 / 5) * (7 / 10)) 1 1)) ∧
    (∀ i : ℕ, i < 20 →
      ∃ op, ((createSolidDiscOps s).filter isMark)[i]? = some op ∧
        markDist op = (7 / 10) * (s * 2 / 5)) ∧
    (∀ i : ℕ, i < 19 →
      ∃ a b, ((createSolidDiscOps s).filter isMark)[i]? = some a ∧
        ((createSolidDiscOps s).filter isMark)[i + 1]? = some b ∧
        markTurn b - markTurn a = 1 / 20) := by
  subst hs
  have hm : (createSolidDiscOps (jsOrQ opts.outputSize 300)).filter isMark =
      (List.range 20).map (fun i : ℕ =>
        DrawOp.mark "#666666" (jsOrQ opts.outputSize 300 / 2)
          (jsOrQ opts.outputSize 300 / 2) ((i : ℚ) / 20)
          ((jsOrQ opts.outputSize 300 * 2 / 5) * (7 / 10)) 1 1) := rfl
  have hget : ∀ i : ℕ, i < 20 →
      ((createSolidDiscOps (jsOrQ opts.outputSize 300)).filter isMark)[i]? =
        some (DrawOp.mark "#666666" (jsOrQ opts.outputSize 300 / 2)
          (jsOrQ opts.outputSize 300 / 2) ((i : ℚ) / 20)
          ((jsOrQ opts.outputSize 300 * 2 / 5) * (7 / 10)) 1 1) := by
    intro i hi
    rw [hm]
    simp [List.getElem?_map, List.getElem?_range, hi]
  refine ⟨rfl, rfl, rfl, ?_, hget, ?_, ?_⟩
  · rw [hm]
    simp
  · intro i hi
    refine ⟨_, hget i hi, ?_⟩
    simp only [markTurn, markDist]
    ring
  · intro i hi
    refine ⟨_, _, hget i (by omega), hget (i + 1) (by omega), ?_⟩
    simp only [markTurn]
    push_cast
    ring

/-- Witness for C2 at a concrete output size of 10. -/
theorem c2_disc_fallback_witness :
    (jsOrQ (some 10) 300 : ℚ) =
      jsOrQ ({ outputSize := some 10 } : CompositorOptions).outputSize 300 ∧
    ((createSolidDiscOps (jsOrQ (some 10) 300)).filter isMark).length = 20 :=
  ⟨rfl, (c2_disc_fallback (fun _ _ _ _ _ => false) (fun _ => "G") "404"
      { outputSize := some 10 } (jsOrQ (some 10) 300) rfl).2.2.2.1⟩

/-- C7: when the generated image fails to load, `compositeDiscCover` rejects
with exactly that load error — no fallback, no composited surface is ever
returned for that invocation. -/
theorem c7_generated_load_failure (mf : MarkFoot) (discLoad : Except String Canvas)
    (opts : CompositorOptions) (e : String) :
    compositeDiscCover mf (.error e) discLoad opts = .error e ∧
    exceptIsOk (compositeDiscCover mf (.error e) discLoad opts) = false :=
  ⟨rfl, rfl⟩

/-- C9: two invocations of `compositeDiscCover` with identical inputs (same
generated image, same disc background, same options) produce identical
surfaces, hence byte-identical outputs under any deterministic PNG data-URL
encoder. -/
theorem c9_deterministic_composite (mf : MarkFoot) (encode : CompositeResult → String)
    (g1 g2 d1 d2 : Except String Canvas) (o1 o2 : CompositorOptions)
    (hg : g1 = g2) (hd : d1 = d2) (ho : o1 = o2) :
    (compositeDiscCover mf g1 d1 o1).map encode =
      (compositeDiscCover mf g2 d2 o2).map encode := by
  subst hg
  subst hd
  subst ho
  rfl

/-- Witness for C9 at concrete identical inputs. -/
theorem c9_deterministic_composite_witness :
    (Except.ok (fun _ => "G") : Except String Canvas) = .ok (fun _ => "G") ∧
    (compositeDiscCover (fun _ _ _ _ _ => false) (.ok fun _ => "G") (.ok fun _ => "B")
        { outputSize := some 10 }).map (fun _ => "data:image") =
      (compositeDiscCover (fun _ _ _ _ _ => false) (.ok fun _ => "G") (.ok fun _ => "B")
        { outputSize := some 10 }).map (fun _ => "data:image") :=
  ⟨rfl, c9_deterministic_composite (fun _ _ _ _ _ => false) (fun _ => "data:image")
    _ _ _ _ _ _ rfl rfl rfl⟩
